import Mathlib

/-!
Formal model of the spatial flood-risk classification core implemented in
`flood_checker_integrated.py` (class `IntegratedFloodRiskChecker`).

The embedding covers the pure in-memory core: the per-row schema
normalization and distance computation of
`calculate_distance_to_flood_areas`, the risk classifier
`_categorize_risk_from_distance`, the likelihood estimator
`_get_yearly_chance_estimate`, the future projection `_project_future_risk`,
and the aggregator `assess_comprehensive_flood_risk`.  The excluded
collaborators (postcode geocoding, the reservoir HTTP API, shapefile
loading) appear only as already-resolved inputs: an `Option Pt` for the
geocoded coordinates, `Option (List Row)` for each loaded dataset, and an
opaque value for the reservoir API result, which the aggregator merges
verbatim.

Real numbers of the Python code (floats) are modelled as rationals
(`ℚ`), and Python's `round(x, 2)` as exact round-to-nearest with ties to
even on `ℚ`.  Shapely geometry objects are modelled by the `Geometry`
structure below: the two methods the code calls
(`geometry.contains(point)`, `point.distance(geometry)`) are fields,
bundled with the metric facts shapely guarantees for them (distance is
nonnegative; distance is zero exactly on the closed region; `contains`
tests the strict interior, which lies inside the closed region).  Concrete
instances used in witnesses are axis-aligned rectangles whose `distTo`
agrees with the true planar distance at every point the theorems evaluate
it on (points that face an edge of the rectangle squarely or touch it).
-/

namespace FloodCheck

open List

/-- A point in the British National Grid plane: `Point(easting, northing)`. -/
structure Pt where
  x : ℚ
  y : ℚ
deriving DecidableEq

/-- Model of a shapely polygon geometry as the code uses it:
`containsB` is `geometry.contains(point)` (true exactly on the strict
interior), `coversB` is membership in the closed region (interior plus
boundary), and `distTo` is `point.distance(geometry)` (the planar distance
to the region, `0` on the region itself).  The three propositional fields
record the metric facts shapely guarantees and that the proofs rely on. -/
structure Geometry where
  containsB : Pt → Bool
  coversB : Pt → Bool
  distTo : Pt → ℚ
  dist_nonneg : ∀ p, 0 ≤ distTo p
  dist_zero_iff : ∀ p, distTo p = 0 ↔ coversB p = true
  contains_covers : ∀ p, containsB p = true → coversB p = true

/-- Distance from coordinate `t` to the closed interval `[a, b]`. -/
def gap (a b t : ℚ) : ℚ := max (a - t) (max 0 (t - b))

/-- Axis-aligned rectangle `[x0, x1] × [y0, y1]` as a `Geometry`.  Its
`distTo` is the sum of the per-axis gaps; this satisfies the shapely
contract above and coincides with the true planar distance whenever at
most one axis gap is nonzero, which holds at every point the concrete
theorems below evaluate it on. -/
def rectGeom (x0 y0 x1 y1 : ℚ) : Geometry where
  containsB := fun p => decide (x0 < p.x ∧ p.x < x1 ∧ y0 < p.y ∧ p.y < y1)
  coversB := fun p => decide (x0 ≤ p.x ∧ p.x ≤ x1 ∧ y0 ≤ p.y ∧ p.y ≤ y1)
  distTo := fun p => gap x0 x1 p.x + gap y0 y1 p.y
  dist_nonneg := fun p => by
    have hg : ∀ a b t : ℚ, 0 ≤ gap a b t := fun a b t =>
      le_trans (le_max_left 0 (t - b)) (le_max_right (a - t) (max 0 (t - b)))
    exact add_nonneg (hg x0 x1 p.x) (hg y0 y1 p.y)
  dist_zero_iff := fun p => by
    have hg : ∀ a b t : ℚ, 0 ≤ gap a b t := fun a b t =>
      le_trans (le_max_left 0 (t - b)) (le_max_right (a - t) (max 0 (t - b)))
    have hz : ∀ a b t : ℚ, gap a b t = 0 ↔ a ≤ t ∧ t ≤ b := by
      intro a b t
      unfold gap
      constructor
      · intro h
        constructor
        · have h1 : a - t ≤ 0 := h ▸ le_max_left (a - t) (max 0 (t - b))
          linarith
        · have h2 : t - b ≤ max (a - t) (max 0 (t - b)) :=
            le_trans (le_max_right 0 (t - b)) (le_max_right (a - t) (max 0 (t - b)))
          linarith [h ▸ h2]
      · rintro ⟨h1, h2⟩
        have hb : max 0 (t - b) = 0 := max_eq_left (by linarith)
        rw [hb]
        exact max_eq_right (by linarith)
    rw [add_eq_zero_iff_of_nonneg (hg x0 x1 p.x) (hg y0 y1 p.y), hz, hz,
      decide_eq_true_iff]
    tauto
  contains_covers := fun p => by
    simp only [decide_eq_true_iff]
    rintro ⟨h1, h2, h3, h4⟩
    exact ⟨le_of_lt h1, le_of_lt h2, le_of_lt h3, le_of_lt h4⟩

/-- Round `q` to the nearest integer, ties to even: the rounding mode of
Python's builtin `round`. -/
def roundHalfEven (q : ℚ) : ℤ :=
  if q - ⌊q⌋ < 1/2 then ⌊q⌋
  else if 1/2 < q - ⌊q⌋ then ⌊q⌋ + 1
  else if ⌊q⌋ % 2 = 0 then ⌊q⌋ else ⌊q⌋ + 1

/-- `round(distance, 2)` of the Python code: round to two decimal places. -/
def round2 (q : ℚ) : ℚ := (roundHalfEven (q * 100) : ℚ) / 100

/-- Whether `pat` occurs as a contiguous sublist of the second argument. -/
def listInfixCheck (pat : List Char) : List Char → Bool
  | [] => pat.isEmpty
  | b :: bs => List.isPrefixOf pat (b :: bs) || listInfixCheck pat bs

/-- Python's substring test `pat in s` on strings. -/
def strContains (pat s : String) : Bool := listInfixCheck pat.data s.data

/-- `_categorize_risk_from_distance(distance_meters, is_inside)`. -/
def categorize_risk_from_distance (distance_meters : ℚ) (is_inside : Bool) : String :=
  if is_inside then ("HIGH")
  else if distance_meters ≤ 100 then ("MEDIUM")
  else if distance_meters ≤ 500 then ("LOW")
  else ("VERY LOW")

/-- `_get_yearly_chance_estimate(risk_level)`: the fixed lookup table, with
the dictionary-lookup default of the Python `dict.get`. -/
def get_yearly_chance_estimate (risk_level : String) : String :=
  if risk_level = ("HIGH") then ("Greater than 1 in 30 (3.3%)")
  else if risk_level = ("MEDIUM") then ("Between 1 in 100 and 1 in 30 (1% to 3.3%)")
  else if risk_level = ("LOW") then ("Between 1 in 1000 and 1 in 100 (0.1% to 1%)")
  else if risk_level = ("VERY LOW") then ("Less than 1 in 1000 (0.1%)")
  else ("Unknown")

/-- `_project_future_risk(current_risk)`: a pure text-pattern match on the
present-day band string. -/
def project_future_risk (current_risk : String) : String :=
  if strContains ("Greater than 1 in 30") current_risk then
    ("Greater than 1 in 30 (3.3%) - increasing trend expected")
  else if strContains ("Between 1 in 100 and 1 in 30") current_risk then
    ("Between 1 in 75 and 1 in 30 (1.3% to 3.3%) - higher due to climate change")
  else current_risk ++ (" - may increase slightly due to climate change")

/-- The attribute group of the "Flood Risk Area" shapefile schema.  The code
tests `'fra_id' in area` and then reads `area['fra_id']`, `area['fra_name']`,
`area['flood_sour']` and `area.get('frr_cycle', 'Unknown')`; dataset columns
are uniform per dataframe, so the group is modelled as present or absent as
a whole, with only `frr_cycle` individually optional (it is read with a
dictionary default). -/
structure FraFields where
  fra_id : String
  fra_name : String
  flood_sour : String
  frr_cycle : Option String
deriving DecidableEq

/-- One raw dataset row as `calculate_distance_to_flood_areas` inspects it:
the optional FRA attribute group, the optional `prob_4band` attribute of the
rivers/sea schema, and the polygon geometry. -/
structure Row where
  fra : Option FraFields
  prob_4band : Option String
  geometry : Geometry

/-- The per-area result dictionary `area_info` built by
`calculate_distance_to_flood_areas`: the rounded distance, the
`risk_status` marker (`"INSIDE"`/`"OUTSIDE"`), the geometry, and the
normalized identification fields.  `cycle` and `probability` are optional
because each schema branch writes only one of them. -/
structure AreaInfo where
  distance_meters : ℚ
  risk_status : String
  geometry : Geometry
  id : String
  name : String
  source : String
  cycle : Option String
  probability : Option String

/-- One loop iteration of `calculate_distance_to_flood_areas`: containment
test, distance, rounding, then the priority-ordered schema match.  `i` is
`len(results)` at the time the row is processed, i.e. the row's position. -/
def processRow (i : Nat) (p : Pt) (row : Row) : AreaInfo :=
  let inside := row.geometry.containsB p
  let distance : ℚ := if inside then 0 else row.geometry.distTo p
  let status : String := if inside then ("INSIDE") else ("OUTSIDE")
  match row.fra with
  | some f =>
      { distance_meters := round2 distance, risk_status := status,
        geometry := row.geometry, id := f.fra_id, name := f.fra_name,
        source := f.flood_sour, cycle := some (f.frr_cycle.getD ("Unknown")),
        probability := none }
  | none =>
      match row.prob_4band with
      | some pb =>
          { distance_meters := round2 distance, risk_status := status,
            geometry := row.geometry, id := ("Rivers_Sea_") ++ toString i,
            name := ("Rivers and Sea Risk Area"), source := ("Rivers and Sea"),
            cycle := none, probability := some pb }
      | none =>
          { distance_meters := round2 distance, risk_status := status,
            geometry := row.geometry, id := ("Area_") ++ toString i,
            name := ("Flood Risk Area"), source := ("Unknown"),
            cycle := some ("Unknown"), probability := none }

/-- The `results` list right before the final sort, in dataset row order. -/
def buildResults (p : Pt) : Nat → List Row → List AreaInfo
  | _, [] => []
  | i, row :: rows => processRow i p row :: buildResults p (i + 1) rows

def preSortResults (p : Pt) (rows : List Row) : List AreaInfo :=
  buildResults p 0 rows

/-- The sort key relation of `results.sort(key=lambda x: x['distance_meters'])`. -/
def distLE (a b : AreaInfo) : Prop := a.distance_meters ≤ b.distance_meters

instance : DecidableRel distLE := fun a b =>
  inferInstanceAs (Decidable (a.distance_meters ≤ b.distance_meters))

instance : IsTotal AreaInfo distLE := ⟨fun a b => le_total a.distance_meters b.distance_meters⟩

instance : IsTrans AreaInfo distLE := ⟨fun _ _ _ hab hbc => le_trans hab hbc⟩

/-- `results.sort(key=lambda x: x['distance_meters'])`: Python's `list.sort`
is a stable sort by the key; insertion sort with the non-strict key order is
the executable stable sort used to model it (a stable sort's output is
determined by the key and the input order, so the choice of stable sorting
algorithm is immaterial). -/
def sortByDist (l : List AreaInfo) : List AreaInfo := List.insertionSort distLE l

/-- `calculate_distance_to_flood_areas(coordinates, data_source)`: the guard
clause returns `[]` for a missing point, a missing dataset, or an empty
dataset; otherwise one result per row, sorted by rounded distance. -/
def calculate_distance_to_flood_areas
    (coordinates : Option Pt) (data_source : Option (List Row)) : List AreaInfo :=
  match coordinates, data_source with
  | none, _ => []
  | some _, none => []
  | some p, some rows => if rows.isEmpty then [] else sortByDist (preSortResults p rows)

/-- One top-level category entry of the assessment dictionary: either the
initial `DATA NOT AVAILABLE` placeholder shape (risk level and note) or the
fully assessed shape (risk level, both likelihood bands, optional closest
distance, area count). -/
inductive CatResult where
  | placeholder (risk_level note : String)
  | assessed (risk_level yearly_chance_current yearly_chance_2040s : String)
      (closest_distance : Option ℚ) (areas_count : Nat)
deriving DecidableEq

/-- The loaded datasets held by `IntegratedFloodRiskChecker`: `fra_data` and
`rivers_sea_data`, each `None` when loading failed or found nothing. -/
structure CheckerState where
  fra_data : Option (List Row)
  rivers_sea_data : Option (List Row)

/-- The composite assessment dictionary returned by
`assess_comprehensive_flood_risk` for a present point.  The reservoir entry
has type parameter `R`: the reservoir API result is opaque to the core and
is merged verbatim, overwriting its initial placeholder. -/
structure Assessment (R : Type) where
  coordinates : Pt
  surface_water : CatResult
  rivers_and_sea : CatResult
  reservoirs : R
  groundwater : CatResult
  nearest_areas : List AreaInfo

/-- The fixed category value assigned when the FRA data is loaded but the
category's filtered area list is empty (the `else` branches at lines
269-276 and 289-296 of the source, which are textually identical). -/
def noDataCategory : CatResult :=
  CatResult.assessed ("VERY LOW") ("Less than 1 in 1000 (0.1%)")
    ("Less than 1 in 1000 (0.1%) - may increase slightly") none 0

/-- The category filter for surface water: `'Surface Water' in str(source)`. -/
def surfaceFilter (a : AreaInfo) : Bool := strContains ("Surface Water") a.source

/-- The category filter for rivers and sea:
`'Rivers' in str(source) or 'Sea' in str(source)`. -/
def riversFilter (a : AreaInfo) : Bool :=
  strContains ("Rivers") a.source || strContains ("Sea") a.source

/-- The per-category assessment block of `assess_comprehensive_flood_risk`
(the `if …: … else: …` at lines 259-276 of the source, repeated verbatim at
lines 279-296 for the rivers/sea category): classify the head of the
filtered list if it is nonempty, otherwise the fixed no-data value. -/
def categoryAssessment (areas : List AreaInfo) : CatResult :=
  match areas with
  | [] => noDataCategory
  | closest :: _ =>
      let risk := categorize_risk_from_distance closest.distance_meters
        (closest.risk_status == ("INSIDE"))
      CatResult.assessed risk (get_yearly_chance_estimate risk)
        (project_future_risk (get_yearly_chance_estimate risk))
        (some closest.distance_meters) areas.length

/-- `assess_comprehensive_flood_risk(coordinates)`.  `none` models the empty
dictionary returned for an absent point.  The reservoir API call made inside
the Python function is an external collaborator; its result is the
already-resolved input `reservoir_result`, stored verbatim (line 303 of the
source overwrites the placeholder unconditionally).  When `fra_data` is
`None` the whole FRA block is skipped and the initial placeholder entries
survive. -/
def assess_comprehensive_flood_risk (R : Type) (st : CheckerState)
    (reservoir_result : R) (coordinates : Option Pt) : Option (Assessment R) :=
  match coordinates with
  | none => none
  | some p =>
      match st.fra_data with
      | none =>
          some { coordinates := p,
                 surface_water := CatResult.placeholder ("DATA NOT AVAILABLE")
                   ("Surface water data not yet integrated"),
                 rivers_and_sea := CatResult.placeholder ("DATA NOT AVAILABLE")
                   ("Processing..."),
                 reservoirs := reservoir_result,
                 groundwater := CatResult.placeholder ("DATA NOT AVAILABLE")
                   ("Requires BGS data"),
                 nearest_areas := [] }
      | some rows =>
          let all_fra := calculate_distance_to_flood_areas (some p) (some rows)
          some { coordinates := p,
                 surface_water := categoryAssessment (all_fra.filter surfaceFilter),
                 rivers_and_sea := categoryAssessment (all_fra.filter riversFilter),
                 reservoirs := reservoir_result,
                 groundwater := CatResult.placeholder ("DATA NOT AVAILABLE")
                   ("Requires BGS data"),
                 nearest_areas := all_fra.take 5 }

/-! Concrete test data used by witnesses and counterexamples.  All points
and rectangles are placed so that the origin faces a vertical edge of each
rectangle squarely; `rectGeom`'s `distTo` then equals the true planar
distance at the origin. -/

/-- The query point used in all concrete instances. -/
def originPt : Pt := ⟨0, 0⟩

/-- FRA attribute group of a surface-water area. -/
def fraA : FraFields := ⟨("A1"), ("Area A"), ("Surface Water"), none⟩

/-- FRA attribute group of a second surface-water area. -/
def fraB : FraFields := ⟨("B1"), ("Area B"), ("Surface Water"), none⟩

/-- A surface-water FRA row whose polygon is 100.004 m from the origin. -/
def rowNear : Row := ⟨some fraA, none, rectGeom 100.004 (-1) 200 1⟩

/-- A surface-water FRA row whose polygon is 0.444 m from the origin. -/
def rowA : Row := ⟨some fraA, none, rectGeom 0.444 (-1) 9 1⟩

/-- A surface-water FRA row whose polygon is 0.436 m from the origin. -/
def rowB : Row := ⟨some fraB, none, rectGeom 0.436 (-1) 9 1⟩

/-- A surface-water FRA row whose polygon boundary passes through the
origin (the origin is a corner of the unit square). -/
def rowBoundary : Row := ⟨some fraA, none, rectGeom 0 0 1 1⟩

/-- A row matching neither the FRA schema nor the rivers/sea schema; its
polygon is 10 m from the origin. -/
def rowFallback : Row := ⟨none, none, rectGeom 10 (-1) 20 1⟩

/-- A rivers/sea-schema row (only `prob_4band`); its polygon is 3 m from
the origin. -/
def rowProb : Row := ⟨none, some ("High"), rectGeom 3 (-1) 4 1⟩

/-! ### General lemmas about the model -/

theorem roundHalfEven_nonneg (q : ℚ) (h : 0 ≤ q) : 0 ≤ roundHalfEven q := by
  have hf : (0 : ℤ) ≤ ⌊q⌋ := Int.le_floor.mpr (by exact_mod_cast h)
  unfold roundHalfEven
  split
  · exact hf
  · split
    · omega
    · split
      · exact hf
      · omega

theorem round2_nonneg (q : ℚ) (h : 0 ≤ q) : 0 ≤ round2 q := by
  unfold round2
  have h100 : 0 ≤ q * 100 := by linarith
  have := roundHalfEven_nonneg (q * 100) h100
  positivity

theorem round2_zero : round2 0 = 0 := by
  have h0 : roundHalfEven 0 = 0 := by
    unfold roundHalfEven
    norm_num
  unfold round2
  rw [show (0 : ℚ) * 100 = 0 by norm_num, h0]
  norm_num

theorem round2_eq_of_floor (q : ℚ) (n : ℤ) (h1 : (n : ℚ) ≤ q * 100) (h2 : q * 100 < n + 1)
    (h3 : q * 100 - n < 1/2) : round2 q = (n : ℚ) / 100 := by
  have hf : ⌊q * 100⌋ = n := Int.floor_eq_iff.mpr ⟨h1, h2⟩
  unfold round2 roundHalfEven
  rw [hf, if_pos h3]

theorem round2_eq_of_floor_up (q : ℚ) (n : ℤ) (h1 : (n : ℚ) ≤ q * 100) (h2 : q * 100 < n + 1)
    (h3 : 1/2 < q * 100 - n) : round2 q = ((n + 1 : ℤ) : ℚ) / 100 := by
  have hf : ⌊q * 100⌋ = n := Int.floor_eq_iff.mpr ⟨h1, h2⟩
  unfold round2 roundHalfEven
  rw [hf, if_neg (by linarith), if_pos h3]

theorem processRow_distance (i : Nat) (p : Pt) (row : Row) :
    (processRow i p row).distance_meters =
      round2 (if row.geometry.containsB p then 0 else row.geometry.distTo p) := by
  cases hf : row.fra with
  | some f => simp [processRow, hf]
  | none =>
      cases hp : row.prob_4band with
      | some pb => simp [processRow, hf, hp]
      | none => simp [processRow, hf, hp]

theorem processRow_status (i : Nat) (p : Pt) (row : Row) :
    (processRow i p row).risk_status =
      if row.geometry.containsB p then ("INSIDE") else ("OUTSIDE") := by
  cases hf : row.fra with
  | some f => simp [processRow, hf]
  | none =>
      cases hp : row.prob_4band with
      | some pb => simp [processRow, hf, hp]
      | none => simp [processRow, hf, hp]

theorem length_buildResults (p : Pt) :
    ∀ (i : Nat) (rows : List Row), (buildResults p i rows).length = rows.length := by
  intro i rows
  induction rows generalizing i with
  | nil => rfl
  | cons row rows ih => simp [buildResults, ih]

theorem mem_buildResults (p : Pt) (r : AreaInfo) :
    ∀ (i : Nat) (rows : List Row), r ∈ buildResults p i rows →
      ∃ j row, row ∈ rows ∧ r = processRow j p row := by
  intro i rows
  induction rows generalizing i with
  | nil => intro h; simp [buildResults] at h
  | cons row rows ih =>
      intro h
      rcases List.mem_cons.mp h with h1 | h2
      · exact ⟨i, row, List.mem_cons_self row rows, h1⟩
      · rcases ih (i + 1) h2 with ⟨j, row2, hmem, heq⟩
        exact ⟨j, row2, List.mem_cons_of_mem row hmem, heq⟩

theorem sortByDist_perm (l : List AreaInfo) : sortByDist l ~ l :=
  List.perm_insertionSort distLE l

theorem mem_sortByDist {r : AreaInfo} {l : List AreaInfo} :
    r ∈ sortByDist l ↔ r ∈ l :=
  List.mem_insertionSort distLE

theorem length_sortByDist (l : List AreaInfo) : (sortByDist l).length = l.length :=
  List.length_insertionSort distLE l

theorem sorted_sortByDist (l : List AreaInfo) : (sortByDist l).Pairwise distLE :=
  List.sorted_insertionSort distLE l

theorem filter_key_sortByDist (d : ℚ) (l : List AreaInfo) :
    (sortByDist l).filter (fun r => r.distance_meters == d) =
      l.filter (fun r => r.distance_meters == d) := by
  have hpw : (l.filter (fun r => r.distance_meters == d)).Pairwise distLE := by
    refine List.pairwise_of_forall_mem_list ?_
    intro a ha b hb
    have ha2 : a.distance_meters = d := by
      have := (List.mem_filter.mp ha).2
      simpa using this
    have hb2 : b.distance_meters = d := by
      have := (List.mem_filter.mp hb).2
      simpa using this
    unfold distLE
    rw [ha2, hb2]
  have hsub : l.filter (fun r => r.distance_meters == d) <+ sortByDist l :=
    List.sublist_insertionSort hpw (List.filter_sublist l)
  have hsub2 := hsub.filter (fun r => r.distance_meters == d)
  rw [List.filter_filter] at hsub2
  simp only [Bool.and_self] at hsub2
  have hperm := (sortByDist_perm l).filter (fun r => r.distance_meters == d)
  exact (hsub2.eq_of_length hperm.length_eq.symm).symm

theorem calculate_eq (p : Pt) (rows : List Row) :
    calculate_distance_to_flood_areas (some p) (some rows) =
      sortByDist (preSortResults p rows) := by
  cases rows with
  | nil =>
      simp [calculate_distance_to_flood_areas, preSortResults, buildResults, sortByDist,
        List.insertionSort]
  | cons r rs => simp [calculate_distance_to_flood_areas]

theorem length_calculate (p : Pt) (rows : List Row) :
    (calculate_distance_to_flood_areas (some p) (some rows)).length = rows.length := by
  rw [calculate_eq, length_sortByDist, preSortResults, length_buildResults]

theorem mem_calculate {p : Pt} {rows : List Row} {r : AreaInfo}
    (h : r ∈ calculate_distance_to_flood_areas (some p) (some rows)) :
    ∃ j row, row ∈ rows ∧ r = processRow j p row := by
  rw [calculate_eq, mem_sortByDist] at h
  exact mem_buildResults p r 0 rows h

theorem assess_eq_of_fra (R : Type) (st : CheckerState) (rr : R) (p : Pt)
    (rows : List Row) (h : st.fra_data = some rows) :
    assess_comprehensive_flood_risk R st rr (some p) =
      some { coordinates := p,
             surface_water := categoryAssessment
               ((calculate_distance_to_flood_areas (some p) (some rows)).filter surfaceFilter),
             rivers_and_sea := categoryAssessment
               ((calculate_distance_to_flood_areas (some p) (some rows)).filter riversFilter),
             reservoirs := rr,
             groundwater := CatResult.placeholder ("DATA NOT AVAILABLE")
               ("Requires BGS data"),
             nearest_areas :=
               (calculate_distance_to_flood_areas (some p) (some rows)).take 5 } := by
  simp [assess_comprehensive_flood_risk, h]

theorem assess_eq_of_noFra (R : Type) (st : CheckerState) (rr : R) (p : Pt)
    (h : st.fra_data = none) :
    assess_comprehensive_flood_risk R st rr (some p) =
      some { coordinates := p,
             surface_water := CatResult.placeholder ("DATA NOT AVAILABLE")
               ("Surface water data not yet integrated"),
             rivers_and_sea := CatResult.placeholder ("DATA NOT AVAILABLE")
               ("Processing..."),
             reservoirs := rr,
             groundwater := CatResult.placeholder ("DATA NOT AVAILABLE")
               ("Requires BGS data"),
             nearest_areas := [] } := by
  simp [assess_comprehensive_flood_risk, h]

theorem calculate_singleton (p : Pt) (row : Row) :
    calculate_distance_to_flood_areas (some p) (some [row]) = [processRow 0 p row] := by
  rw [calculate_eq]
  simp [preSortResults, buildResults, sortByDist, List.insertionSort, List.orderedInsert]

/-! ### Claim theorems -/

/-- C1: For every proximity result fed to the risk classifier, a true
containment flag yields HIGH; otherwise distance ≤ 100 yields MEDIUM,
100 < distance ≤ 500 yields LOW, and distance > 500 yields VERY LOW; both
thresholds are inclusive: exactly 100.00 m yields MEDIUM, 100.01 m yields
LOW, exactly 500.00 m yields LOW, and 500.01 m yields VERY LOW. -/
theorem C1_risk_classifier_thresholds :
    (∀ d : ℚ, categorize_risk_from_distance d true = ("HIGH")) ∧
    (∀ d : ℚ, d ≤ 100 → categorize_risk_from_distance d false = ("MEDIUM")) ∧
    (∀ d : ℚ, 100 < d → d ≤ 500 → categorize_risk_from_distance d false = ("LOW")) ∧
    (∀ d : ℚ, 500 < d → categorize_risk_from_distance d false = ("VERY LOW")) ∧
    categorize_risk_from_distance 100 false = ("MEDIUM") ∧
    categorize_risk_from_distance 100.01 false = ("LOW") ∧
    categorize_risk_from_distance 500 false = ("LOW") ∧
    categorize_risk_from_distance 500.01 false = ("VERY LOW") := by
  refine ⟨fun d => rfl, fun d h => ?_, fun d h1 h2 => ?_, fun d h => ?_, ?_, ?_, ?_, ?_⟩
  · simp [categorize_risk_from_distance, h]
  · simp [categorize_risk_from_distance, h2, not_le.mpr h1]
  · have h1 : (100 : ℚ) < d := lt_trans (by norm_num) h
    simp [categorize_risk_from_distance, not_le.mpr h, not_le.mpr h1]
  · norm_num [categorize_risk_from_distance]
  · norm_num [categorize_risk_from_distance]
  · norm_num [categorize_risk_from_distance]
  · norm_num [categorize_risk_from_distance]

/-- Witness for C1: the classifier evaluated at representative concrete
distances in each band. -/
theorem C1_risk_classifier_thresholds_witness :
    categorize_risk_from_distance 50 false = ("MEDIUM") ∧
    categorize_risk_from_distance 300 false = ("LOW") ∧
    categorize_risk_from_distance 600 false = ("VERY LOW") :=
  ⟨C1_risk_classifier_thresholds.2.1 50 (by norm_num),
   C1_risk_classifier_thresholds.2.2.1 300 (by norm_num) (by norm_num),
   C1_risk_classifier_thresholds.2.2.2.1 600 (by norm_num)⟩

/-- C7: The future-band projection is a pure function of the present-day
band string, decided by text-pattern match in priority order: a string
containing the HIGH band pattern maps to the HIGH band with the
increasing-trend note; otherwise one containing the MEDIUM band pattern
maps to the narrowed 1-in-75 to 1-in-30 band with the climate-change note;
any other string maps to itself with the "may increase slightly" note
appended. -/
theorem C7_future_projection_pattern_match :
    (∀ s : String, strContains ("Greater than 1 in 30") s = true →
      project_future_risk s =
        ("Greater than 1 in 30 (3.3%) - increasing trend expected")) ∧
    (∀ s : String, strContains ("Greater than 1 in 30") s = false →
      strContains ("Between 1 in 100 and 1 in 30") s = true →
      project_future_risk s =
        ("Between 1 in 75 and 1 in 30 (1.3% to 3.3%) - higher due to climate change")) ∧
    (∀ s : String, strContains ("Greater than 1 in 30") s = false →
      strContains ("Between 1 in 100 and 1 in 30") s = false →
      project_future_risk s = s ++ (" - may increase slightly due to climate change")) := by
  refine ⟨fun s h => ?_, fun s h1 h2 => ?_, fun s h1 h2 => ?_⟩ <;>
    simp [project_future_risk, *]

/-- Witness for C7: the projection evaluated at the three present-day
bands the likelihood estimator produces. -/
theorem C7_future_projection_pattern_match_witness :
    project_future_risk ("Greater than 1 in 30 (3.3%)") =
      ("Greater than 1 in 30 (3.3%) - increasing trend expected") ∧
    project_future_risk ("Between 1 in 100 and 1 in 30 (1% to 3.3%)") =
      ("Between 1 in 75 and 1 in 30 (1.3% to 3.3%) - higher due to climate change") ∧
    project_future_risk ("Less than 1 in 1000 (0.1%)") =
      ("Less than 1 in 1000 (0.1%)") ++ (" - may increase slightly due to climate change") :=
  ⟨C7_future_projection_pattern_match.1 ("Greater than 1 in 30 (3.3%)") (by decide),
   C7_future_projection_pattern_match.2.1 ("Between 1 in 100 and 1 in 30 (1% to 3.3%)")
     (by decide) (by decide),
   C7_future_projection_pattern_match.2.2 ("Less than 1 in 1000 (0.1%)")
     (by decide) (by decide)⟩

/-- C8: The core has no raising path: the proximity evaluator returns the
empty list for an empty area collection, a missing point, or a missing
dataset, and the aggregator returns the empty composite (`none`, modelling
the empty dictionary) exactly when the point is absent. -/
theorem C8_no_error_paths :
    (∀ p : Pt, calculate_distance_to_flood_areas (some p) (some []) = []) ∧
    (∀ ds : Option (List Row), calculate_distance_to_flood_areas none ds = []) ∧
    (∀ p : Pt, calculate_distance_to_flood_areas (some p) none = []) ∧
    (∀ (R : Type) (st : CheckerState) (rr : R),
      assess_comprehensive_flood_risk R st rr none = none) ∧
    (∀ (R : Type) (st : CheckerState) (rr : R) (p : Pt),
      assess_comprehensive_flood_risk R st rr (some p) ≠ none) := by
  refine ⟨fun p => rfl, fun ds => ?_, fun p => rfl, fun R st rr => rfl,
    fun R st rr p => ?_⟩
  · cases ds <;> rfl
  · cases h : st.fra_data <;> simp [assess_comprehensive_flood_risk, h]

/-- C9: The normalizer applies the schema matchers in fixed priority order
with first match winning — the FRA field group is used directly when
present; otherwise a probability-band field yields source "Rivers and Sea"
with a positional identifier and the probability carried over; otherwise
the generic fallback yields source "Unknown" with synthesized identifier
and name — and normalization is total: exactly one result per row. -/
theorem C9_normalizer_priority_total :
    (∀ (p : Pt) (rows : List Row),
      (calculate_distance_to_flood_areas (some p) (some rows)).length = rows.length) ∧
    (∀ (i : Nat) (p : Pt) (row : Row) (f : FraFields), row.fra = some f →
      (processRow i p row).id = f.fra_id ∧ (processRow i p row).name = f.fra_name ∧
      (processRow i p row).source = f.flood_sour ∧
      (processRow i p row).cycle = some (f.frr_cycle.getD ("Unknown")) ∧
      (processRow i p row).probability = none) ∧
    (∀ (i : Nat) (p : Pt) (row : Row) (pb : String),
      row.fra = none → row.prob_4band = some pb →
      (processRow i p row).id = ("Rivers_Sea_") ++ toString i ∧
      (processRow i p row).name = ("Rivers and Sea Risk Area") ∧
      (processRow i p row).source = ("Rivers and Sea") ∧
      (processRow i p row).probability = some pb) ∧
    (∀ (i : Nat) (p : Pt) (row : Row), row.fra = none → row.prob_4band = none →
      (processRow i p row).id = ("Area_") ++ toString i ∧
      (processRow i p row).name = ("Flood Risk Area") ∧
      (processRow i p row).source = ("Unknown") ∧
      (processRow i p row).cycle = some ("Unknown")) := by
  refine ⟨fun p rows => length_calculate p rows, fun i p row f hf => ?_,
    fun i p row pb hf hp => ?_, fun i p row hf hp => ?_⟩
  · simp [processRow, hf]
  · simp [processRow, hf, hp]
  · simp [processRow, hf, hp]

/-- Witness for C9: the three schema branches evaluated on one row of each
kind, and totality on the three-row dataset. -/
theorem C9_normalizer_priority_total_witness :
    (calculate_distance_to_flood_areas (some originPt)
      (some [rowA, rowProb, rowFallback])).length = 3 ∧
    (processRow 0 originPt rowA).source = ("Surface Water") ∧
    (processRow 1 originPt rowProb).id = ("Rivers_Sea_") ++ toString 1 ∧
    (processRow 2 originPt rowFallback).source = ("Unknown") :=
  ⟨C9_normalizer_priority_total.1 originPt [rowA, rowProb, rowFallback],
   ((C9_normalizer_priority_total.2.1 0 originPt rowA fraA rfl).2.2.1 : _),
   (C9_normalizer_priority_total.2.2.1 1 originPt rowProb ("High") rfl rfl).1,
   (C9_normalizer_priority_total.2.2.2 2 originPt rowFallback rfl rfl).2.2.1⟩

/-- C10: The composite assessment reads only the FRA dataset: two checker
states agreeing on `fra_data` but differing arbitrarily in
`rivers_sea_data` produce identical composite assessments for every point
and reservoir result. -/
theorem C10_independent_of_rivers_sea_dataset (R : Type) (rr : R) (c : Option Pt)
    (st1 st2 : CheckerState) (h : st1.fra_data = st2.fra_data) :
    assess_comprehensive_flood_risk R st1 rr c =
      assess_comprehensive_flood_risk R st2 rr c := by
  cases c with
  | none => rfl
  | some p =>
      cases h2 : st2.fra_data with
      | none =>
          rw [assess_eq_of_noFra R st1 rr p (h.trans h2), assess_eq_of_noFra R st2 rr p h2]
      | some rows =>
          rw [assess_eq_of_fra R st1 rr p rows (h.trans h2),
            assess_eq_of_fra R st2 rr p rows h2]

/-- Witness for C10: two states sharing the FRA dataset, one without and
one with a rivers/sea dataset, yield the same composite. -/
theorem C10_independent_of_rivers_sea_dataset_witness :
    assess_comprehensive_flood_risk Unit ⟨some [rowA], none⟩ () (some originPt) =
      assess_comprehensive_flood_risk Unit ⟨some [rowA], some [rowFallback]⟩ ()
        (some originPt) :=
  C10_independent_of_rivers_sea_dataset Unit () (some originPt)
    ⟨some [rowA], none⟩ ⟨some [rowA], some [rowFallback]⟩ rfl

/-- C4: The proximity evaluator's output is sorted ascending by the result
distance, and for every distance value the results carrying it appear in
the same relative order as in the pre-sort list, which is in dataset row
order (stable sort). -/
theorem C4_sort_ascending_stable (p : Pt) (rows : List Row) :
    (calculate_distance_to_flood_areas (some p) (some rows)).Pairwise
      (fun a b => a.distance_meters ≤ b.distance_meters) ∧
    ∀ d : ℚ,
      (calculate_distance_to_flood_areas (some p) (some rows)).filter
          (fun r => r.distance_meters == d) =
        (preSortResults p rows).filter (fun r => r.distance_meters == d) := by
  constructor
  · rw [calculate_eq]
    exact sorted_sortByDist (preSortResults p rows)
  · intro d
    rw [calculate_eq]
    exact filter_key_sortByDist d (preSortResults p rows)

/-- C2 (amended): Every proximity result has nonnegative distance, and a
true containment flag forces distance 0.  (The converse — distance 0 only
with the flag set — fails; see the counterexample.) -/
theorem C2_distance_nonneg_containment (p : Pt) (rows : List Row) (r : AreaInfo)
    (hr : r ∈ calculate_distance_to_flood_areas (some p) (some rows)) :
    0 ≤ r.distance_meters ∧ (r.risk_status = ("INSIDE") → r.distance_meters = 0) := by
  rcases mem_calculate hr with ⟨j, row, hmem, rfl⟩
  rw [processRow_distance, processRow_status]
  cases hc : row.geometry.containsB p with
  | false =>
      simp only [hc, Bool.false_eq_true, if_false]
      exact ⟨round2_nonneg _ (row.geometry.dist_nonneg p), fun h => absurd h (by decide)⟩
  | true =>
      simp only [hc, if_true]
      exact ⟨le_of_eq round2_zero.symm, fun _ => round2_zero⟩

/-- Witness for C2: the single result for a dataset whose polygon lies
100.004 m from the query point. -/
theorem C2_distance_nonneg_containment_witness :
    0 ≤ (processRow 0 originPt rowNear).distance_meters ∧
      ((processRow 0 originPt rowNear).risk_status = ("INSIDE") →
        (processRow 0 originPt rowNear).distance_meters = 0) :=
  C2_distance_nonneg_containment originPt [rowNear] (processRow 0 originPt rowNear)
    (by
      rw [calculate_eq]
      exact mem_sortByDist.mpr (List.mem_singleton.mpr rfl))

/-- Counterexample to C2 as stated: the origin lies on the boundary of
`rowBoundary`'s polygon (the unit square), so its planar distance to the
polygon is 0 and the stored result distance is 0, yet the containment flag
is false, because `geometry.contains(point)` tests the strict interior.
Hence distance 0 does not imply the containment flag. -/
theorem C2_counterexample :
    rowBoundary.geometry.coversB originPt = true ∧
    rowBoundary.geometry.distTo originPt = 0 ∧
    (processRow 0 originPt rowBoundary).distance_meters = 0 ∧
    (processRow 0 originPt rowBoundary).risk_status = ("OUTSIDE") ∧
    ("OUTSIDE") ≠ ("INSIDE") := by
  have hcb : rowBoundary.geometry.containsB originPt = false := by
    simp [rowBoundary, rectGeom, originPt]
  have hdist : rowBoundary.geometry.distTo originPt = 0 := by
    norm_num [rowBoundary, rectGeom, originPt, gap, max_def]
  refine ⟨?_, hdist, ?_, ?_, by decide⟩
  · simp [rowBoundary, rectGeom, originPt]
  · rw [processRow_distance, hcb]
    simp [hdist, round2_zero]
  · rw [processRow_status, hcb]
    simp

/-- C6 (amended): Whenever the FRA dataset is loaded (possibly empty) and a
category's filtered area list is empty, that category's assessment is the
fixed no-data default: VERY LOW tier, the below-1-in-1000 band now and the
same band with the "may increase slightly" suffix for the 2040s, null
nearest distance, and zero area count.  (When the dataset failed to load
the category instead keeps the DATA NOT AVAILABLE placeholder; see the
counterexample.) -/
theorem C6_empty_category_defaults (R : Type) (st : CheckerState) (rr : R) (p : Pt)
    (rows : List Row) (h : st.fra_data = some rows) :
    ((calculate_distance_to_flood_areas (some p) (some rows)).filter surfaceFilter = [] →
      (assess_comprehensive_flood_risk R st rr (some p)).map (fun A => A.surface_water) =
        some noDataCategory) ∧
    ((calculate_distance_to_flood_areas (some p) (some rows)).filter riversFilter = [] →
      (assess_comprehensive_flood_risk R st rr (some p)).map (fun A => A.rivers_and_sea) =
        some noDataCategory) ∧
    noDataCategory = CatResult.assessed ("VERY LOW") ("Less than 1 in 1000 (0.1%)")
      ("Less than 1 in 1000 (0.1%) - may increase slightly") none 0 := by
  refine ⟨fun hsf => ?_, fun hrf => ?_, rfl⟩
  · rw [assess_eq_of_fra R st rr p rows h]
    simp [hsf, categoryAssessment]
  · rw [assess_eq_of_fra R st rr p rows h]
    simp [hrf, categoryAssessment]

/-- Witness for C6: on the loaded-but-empty FRA dataset both categories
receive the no-data default. -/
theorem C6_empty_category_defaults_witness :
    (assess_comprehensive_flood_risk Unit ⟨some [], none⟩ () (some originPt)).map
      (fun A => A.surface_water) = some noDataCategory ∧
    (assess_comprehensive_flood_risk Unit ⟨some [], none⟩ () (some originPt)).map
      (fun A => A.rivers_and_sea) = some noDataCategory :=
  ⟨(C6_empty_category_defaults Unit ⟨some [], none⟩ () originPt [] rfl).1 rfl,
   (C6_empty_category_defaults Unit ⟨some [], none⟩ () originPt [] rfl).2.1 rfl⟩

/-- Counterexample to C6 as stated: when the FRA dataset is missing
(failed to load, `fra_data = None`), the categories do not receive the
VERY LOW no-data default — the whole FRA block is skipped and they keep
their initial DATA NOT AVAILABLE placeholders. -/
theorem C6_counterexample :
    (assess_comprehensive_flood_risk Unit ⟨none, none⟩ () (some originPt)).map
      (fun A => A.surface_water) =
      some (CatResult.placeholder ("DATA NOT AVAILABLE")
        ("Surface water data not yet integrated")) ∧
    (assess_comprehensive_flood_risk Unit ⟨none, none⟩ () (some originPt)).map
      (fun A => A.rivers_and_sea) =
      some (CatResult.placeholder ("DATA NOT AVAILABLE") ("Processing...")) ∧
    CatResult.placeholder ("DATA NOT AVAILABLE") ("Surface water data not yet integrated")
      ≠ noDataCategory ∧
    CatResult.placeholder ("DATA NOT AVAILABLE") ("Processing...") ≠ noDataCategory := by
  refine ⟨?_, ?_, by decide, by decide⟩ <;>
    rw [assess_eq_of_noFra Unit ⟨none, none⟩ () originPt rfl] <;> rfl

/-- C5 (amended): For a present point and a loaded FRA dataset, the
nearest-areas diagnostic list is the full FRA proximity list truncated to
its first 5 entries; it is sorted ascending by distance and its length is
`min 5 (number of FRA rows)`.  (It is not restricted to the two category
filters; see the counterexample.) -/
theorem C5_nearest_areas_take_five (R : Type) (st : CheckerState) (rr : R) (p : Pt)
    (rows : List Row) (h : st.fra_data = some rows) :
    ∃ A, assess_comprehensive_flood_risk R st rr (some p) = some A ∧
      A.nearest_areas = (calculate_distance_to_flood_areas (some p) (some rows)).take 5 ∧
      A.nearest_areas.length = min 5 rows.length ∧
      A.nearest_areas.Pairwise (fun a b => a.distance_meters ≤ b.distance_meters) := by
  refine ⟨_, assess_eq_of_fra R st rr p rows h, rfl, ?_, ?_⟩
  · rw [List.length_take, length_calculate]
  · refine List.Pairwise.sublist (List.take_sublist 5 _) ?_
    rw [calculate_eq]
    exact sorted_sortByDist (preSortResults p rows)

/-- Witness for C5: a one-row dataset yields a nearest-areas list of
length `min 5 1 = 1`. -/
theorem C5_nearest_areas_take_five_witness :
    (assess_comprehensive_flood_risk Unit ⟨some [rowA], none⟩ () (some originPt)).map
      (fun A => A.nearest_areas.length) = some 1 := by
  obtain ⟨A, hA, _, hlen, _⟩ :=
    C5_nearest_areas_take_five Unit ⟨some [rowA], none⟩ () originPt [rowA] rfl
  rw [hA, Option.map_some', hlen]
  rfl

/-- Counterexample to C5 as stated: a dataset with one generic-fallback row
(source "Unknown") matches neither category, so the union of the two
categories' sequences is empty and the claim predicts a nearest-areas list
of length `min 5 0 = 0`; the code instead takes the first 5 of the full
FRA list and returns a list of length 1. -/
theorem C5_counterexample :
    (calculate_distance_to_flood_areas (some originPt) (some [rowFallback])).filter
      surfaceFilter = [] ∧
    (calculate_distance_to_flood_areas (some originPt) (some [rowFallback])).filter
      riversFilter = [] ∧
    (assess_comprehensive_flood_risk Unit ⟨some [rowFallback], none⟩ ()
      (some originPt)).map (fun A => A.nearest_areas.length) = some 1 ∧
    (1 : Nat) ≠ min 5 0 := by
  have hsf : surfaceFilter (processRow 0 originPt rowFallback) = false := by
    simp only [surfaceFilter, processRow, rowFallback]
    decide
  have hrf : riversFilter (processRow 0 originPt rowFallback) = false := by
    simp only [riversFilter, processRow, rowFallback]
    decide
  refine ⟨?_, ?_, ?_, by decide⟩
  · rw [calculate_singleton]
    simp [hsf]
  · rw [calculate_singleton]
    simp [hrf]
  · rw [assess_eq_of_fra Unit ⟨some [rowFallback], none⟩ () originPt [rowFallback] rfl,
      Option.map_some']
    rw [show ((calculate_distance_to_flood_areas (some originPt)
      (some [rowFallback])).take 5).length = 1 from by rw [calculate_singleton]; rfl]

/-- C3 (amended): Distances are rounded to 2 decimal places when each
proximity result is created; the ascending sort and the risk classifier's
threshold comparisons then operate on these stored rounded values, not on
the unrounded distances.  Concretely: every result's distance field equals
`round2` of the raw distance, the output is sorted by that field, and the
aggregator classifies the head result by that field. -/
theorem C3_rounded_values_used_internally :
    (∀ (i : Nat) (p : Pt) (row : Row),
      (processRow i p row).distance_meters =
        round2 (if row.geometry.containsB p then 0 else row.geometry.distTo p)) ∧
    (∀ (p : Pt) (rows : List Row),
      (calculate_distance_to_flood_areas (some p) (some rows)).Pairwise
        (fun a b => a.distance_meters ≤ b.distance_meters)) ∧
    (∀ (R : Type) (st : CheckerState) (rr : R) (p : Pt) (rows : List Row)
      (a : AreaInfo) (rest : List AreaInfo), st.fra_data = some rows →
      (calculate_distance_to_flood_areas (some p) (some rows)).filter surfaceFilter =
        a :: rest →
      (assess_comprehensive_flood_risk R st rr (some p)).map (fun A => A.surface_water) =
        some (CatResult.assessed
          (categorize_risk_from_distance a.distance_meters (a.risk_status == ("INSIDE")))
          (get_yearly_chance_estimate (categorize_risk_from_distance a.distance_meters
            (a.risk_status == ("INSIDE"))))
          (project_future_risk (get_yearly_chance_estimate
            (categorize_risk_from_distance a.distance_meters
              (a.risk_status == ("INSIDE")))))
          (some a.distance_meters) (a :: rest).length)) := by
  refine ⟨fun i p row => processRow_distance i p row, fun p rows => ?_,
    fun R st rr p rows a rest h hfil => ?_⟩
  · rw [calculate_eq]
    exact sorted_sortByDist (preSortResults p rows)
  · rw [assess_eq_of_fra R st rr p rows h]
    simp [hfil, categoryAssessment]

/-- Witness for C3: the rounding equation and the aggregator classification
evaluated on the one-row dataset whose polygon is 100.004 m away. -/
theorem C3_rounded_values_used_internally_witness :
    (processRow 0 originPt rowNear).distance_meters =
      round2 (if rowNear.geometry.containsB originPt then 0
        else rowNear.geometry.distTo originPt) ∧
    (assess_comprehensive_flood_risk Unit ⟨some [rowNear], none⟩ () (some originPt)).map
      (fun A => A.surface_water) = some (CatResult.assessed
        (categorize_risk_from_distance (processRow 0 originPt rowNear).distance_meters
          ((processRow 0 originPt rowNear).risk_status == ("INSIDE")))
        (get_yearly_chance_estimate (categorize_risk_from_distance
          (processRow 0 originPt rowNear).distance_meters
          ((processRow 0 originPt rowNear).risk_status == ("INSIDE"))))
        (project_future_risk (get_yearly_chance_estimate (categorize_risk_from_distance
          (processRow 0 originPt rowNear).distance_meters
          ((processRow 0 originPt rowNear).risk_status == ("INSIDE")))))
        (some (processRow 0 originPt rowNear).distance_meters)
        (processRow 0 originPt rowNear :: ([] : List AreaInfo)).length) :=
  ⟨C3_rounded_values_used_internally.1 0 originPt rowNear,
   C3_rounded_values_used_internally.2.2 Unit ⟨some [rowNear], none⟩ () originPt [rowNear]
     (processRow 0 originPt rowNear) [] rfl
     (by
       rw [calculate_singleton]
       rw [List.filter_cons_of_pos (by
         simp only [surfaceFilter, processRow, rowNear, fraA]
         decide)]
       rfl)⟩

/-- Counterexample to C3 as stated: the polygon of `rowNear` is 100.004 m
from the origin; with unrounded comparisons the classifier would return
LOW (100.004 > 100), but the pipeline stores the rounded distance 100.00
and classifies MEDIUM.  Likewise `rowA` (0.444 m) and `rowB` (0.436 m)
both round to 0.44, and the sort leaves them in input order `[A1, B1]`
although their unrounded distances order them `[B1, A1]` — so neither the
classifier nor the sort uses unrounded values. -/
theorem C3_counterexample :
    rowNear.geometry.distTo originPt = 100.004 ∧
    rowNear.geometry.containsB originPt = false ∧
    categorize_risk_from_distance 100.004 false = ("LOW") ∧
    (assess_comprehensive_flood_risk Unit ⟨some [rowNear], none⟩ () (some originPt)).map
      (fun A => A.surface_water) = some (CatResult.assessed ("MEDIUM")
        ("Between 1 in 100 and 1 in 30 (1% to 3.3%)")
        ("Between 1 in 75 and 1 in 30 (1.3% to 3.3%) - higher due to climate change")
        (some 100) 1) ∧
    rowA.geometry.distTo originPt = 0.444 ∧
    rowB.geometry.distTo originPt = 0.436 ∧
    (calculate_distance_to_flood_areas (some originPt) (some [rowA, rowB])).map
      (fun r => r.id) = [("A1"), ("B1")] := by
  have hA100 : round2 ((25001 : ℚ) / 250) = 100 := by
    rw [round2_eq_of_floor ((25001 : ℚ) / 250) 10000 (by norm_num) (by norm_num)
      (by norm_num)]
    norm_num
  have hA444 : round2 ((111 : ℚ) / 250) = 0.44 := by
    rw [round2_eq_of_floor ((111 : ℚ) / 250) 44 (by norm_num) (by norm_num) (by norm_num)]
    norm_num
  have hB436 : round2 ((109 : ℚ) / 250) = 0.44 := by
    rw [round2_eq_of_floor_up ((109 : ℚ) / 250) 43 (by norm_num) (by norm_num)
      (by norm_num)]
    norm_num
  have hd : (processRow 0 originPt rowNear).distance_meters = 100 := by
    norm_num [processRow, rowNear, fraA, rectGeom, originPt, gap, max_def, hA100]
  have hs : (processRow 0 originPt rowNear).risk_status = ("OUTSIDE") := by
    norm_num [processRow, rowNear, fraA, rectGeom, originPt]
  have hsf : surfaceFilter (processRow 0 originPt rowNear) = true := by
    simp only [surfaceFilter, processRow, rowNear, fraA]
    decide
  have hdA : (processRow 0 originPt rowA).distance_meters = 0.44 := by
    norm_num [processRow, rowA, fraA, rectGeom, originPt, gap, max_def, hA444]
  have hdB : (processRow 1 originPt rowB).distance_meters = 0.44 := by
    norm_num [processRow, rowB, fraB, rectGeom, originPt, gap, max_def, hB436]
  refine ⟨?_, ?_, ?_, ?_, ?_, ?_, ?_⟩
  · norm_num [rowNear, rectGeom, originPt, gap, max_def]
  · norm_num [rowNear, rectGeom, originPt]
  · norm_num [categorize_risk_from_distance]
  · rw [assess_eq_of_fra Unit ⟨some [rowNear], none⟩ () originPt [rowNear] rfl,
      calculate_singleton, Option.map_some']
    simp only [List.filter_cons_of_pos hsf, List.filter_nil, categoryAssessment, hd, hs]
    simp only [show (("OUTSIDE") == ("INSIDE")) = false from by decide,
      show categorize_risk_from_distance 100 false = ("MEDIUM") from by
        norm_num [categorize_risk_from_distance],
      show get_yearly_chance_estimate ("MEDIUM") =
        ("Between 1 in 100 and 1 in 30 (1% to 3.3%)") from by decide,
      show project_future_risk ("Between 1 in 100 and 1 in 30 (1% to 3.3%)") =
        ("Between 1 in 75 and 1 in 30 (1.3% to 3.3%) - higher due to climate change")
        from by decide, List.length_cons, List.length_nil]
  · norm_num [rowA, rectGeom, originPt, gap, max_def]
  · norm_num [rowB, rectGeom, originPt, gap, max_def]
  · rw [calculate_eq]
    rw [show preSortResults originPt [rowA, rowB] =
      [processRow 0 originPt rowA, processRow 1 originPt rowB] from rfl]
    rw [show sortByDist [processRow 0 originPt rowA, processRow 1 originPt rowB] =
      List.orderedInsert distLE (processRow 0 originPt rowA)
        [processRow 1 originPt rowB] from rfl]
    rw [List.orderedInsert, if_pos (show distLE (processRow 0 originPt rowA)
      (processRow 1 originPt rowB) from by
        unfold distLE
        rw [hdA, hdB])]
    simp [processRow, rowA, rowB, fraA, fraB]

end FloodCheck
